import Mathlib

/-!
Shallow embedding of the website-monitor program: the change-detecting
monitor (`website_monitor.py`, class `WebsiteChangeMonitor`) and the
monitoring loop and status bookkeeping of `app.py`.

External collaborators are modelled as inputs:
  * the HTTP fetch (`requests.get` wrapped by `_get_page_content`) is an
    `Option String` argument — `none` for the `RequestException` path in
    which `_get_page_content` returns `None`, `some content` for
    `response.text`;
  * the cryptographic digests (`hashlib.sha256(...).hexdigest()` and
    `hashlib.md5(...).hexdigest()`) are function arguments
    `sha, md5Hex : String → String`;
  * the SMTP library is modelled by a script of attempted SMTP steps plus
    an oracle `raises : SmtpStep → Bool` saying which step raises;
  * the filesystem under /tmp is an association list from file path to
    record contents, where an entry mapped to `none` stands for a file
    that exists but cannot be read or parsed (the exception path of
    `_get_saved_hash`);
  * wall-clock timestamps are opaque strings passed in as `now`.
-/

namespace WebsiteMonitor

/-- Python truthiness of an optional string: `None` and the empty string
are falsy (`if not content`, `if not self.previous_hash`, `if url`). -/
def pyTruthy : Option String → Bool
  | none => false
  | some s => s != ""

/-- Python truthiness of an optional integer: `None` and `0` are falsy. -/
def pyTruthyInt : Option Int → Bool
  | none => false
  | some i => i != 0

/-- Lower-case an ASCII letter, as Python `str.lower` does on the ASCII
strings fed to it here. -/
def charLower (c : Char) : Char :=
  if 65 ≤ c.toNat ∧ c.toNat ≤ 90 then Char.ofNat (c.toNat + 32) else c

/-- Python `s.lower()` restricted to its use on configuration strings. -/
def pyLower (s : String) : List Char :=
  s.data.map charLower

/-- ASCII whitespace, which Python `int()` strips around the number. -/
def pySpace (c : Char) : Bool :=
  c = ' ' ∨ c = '\t' ∨ c = '\n' ∨ c = '\r'

/-- The decimal value of an ASCII digit. -/
def digitVal (c : Char) : Option Nat :=
  if 48 ≤ c.toNat ∧ c.toNat ≤ 57 then some (c.toNat - 48) else none

/-- Accumulate decimal digits; any non-digit is a `ValueError`. -/
def parseDigits : List Char → Nat → Option Nat
  | [], acc => some acc
  | c :: cs, acc =>
    match digitVal c with
    | none => none
    | some d => parseDigits cs (acc * 10 + d)

/-- Python `int(s)` on the plain decimal environment strings used here:
surrounding whitespace stripped, an optional sign, then at least one
digit; `none` is the `ValueError` path. -/
def pyInt (s : String) : Option Int :=
  let cs := ((s.data.dropWhile pySpace).reverse.dropWhile pySpace).reverse
  match cs with
  | [] => none
  | c :: rest =>
    if c = '-' then
      match rest with
      | [] => none
      | _ => (parseDigits rest 0).map (fun n => -(n : Int))
    else if c = '+' then
      match rest with
      | [] => none
      | _ => (parseDigits rest 0).map (fun n => (n : Int))
    else (parseDigits cs 0).map (fun n => (n : Int))

/-- The JSON record `_save_hash` writes:
`json.dump ... hash / url / timestamp`.  The hash field is optional
because `data.get` in `_get_saved_hash` may produce `None`. -/
structure SavedRecord where
  hash : Option String
  url : String
  timestamp : String
  deriving Repr, DecidableEq

/-- The /tmp filesystem: association list from a file path to the record
stored there; `none` contents model an unreadable or corrupt file. -/
abbrev FileSystem := List (String × Option SavedRecord)

/-- Read the file at `path`: `none` when the file does not exist
(`os.path.exists` is false), `some none` when it exists but is corrupt. -/
def fileRead (fs : FileSystem) (path : String) : Option (Option SavedRecord) :=
  match fs with
  | [] => none
  | (p, v) :: rest => if p = path then some v else fileRead rest path

/-- Overwrite (or create) the file at `path` with record `r`, as
`open(self.hash_file, "w")` plus `json.dump` does. -/
def fileWrite (fs : FileSystem) (path : String) (r : SavedRecord) : FileSystem :=
  match fs with
  | [] => [(path, some r)]
  | (p, v) :: rest =>
    if p = path then (path, some r) :: rest else (p, v) :: fileWrite rest path r

/-- The email configuration dict built in `app.py` or passed by a caller.
For the `username` and `password` entries the outer `Option` records
whether the KEY is present in the dict (tested by `"username" in config`)
and the inner `Option` is the Python value, which `app.py` sets to
`os.environ.get(...)` and may therefore be `None`. -/
structure EmailConfig where
  sender : String
  recipient : String
  smtp_server : String
  smtp_port : Int
  use_tls : Bool
  username : Option (Option String)
  password : Option (Option String)
  deriving Repr, DecidableEq

/-- One SMTP-library call attempted by `_send_email_notification`. -/
inductive SmtpStep where
  | connect (server : String) (port : Int)
  | starttls
  | login (user pass : Option String)
  | send
  | quit
  deriving Repr, DecidableEq

/-- The sequence of SMTP calls `_send_email_notification` makes when no
call raises: connect, then `starttls` when the `use_tls` value is truthy,
then `login` when BOTH the username and password keys are present in the
dict (regardless of their values), then send and quit. -/
def smtpScript (c : EmailConfig) : List SmtpStep :=
  SmtpStep.connect c.smtp_server c.smtp_port ::
    ((if c.use_tls then [SmtpStep.starttls] else []) ++
      (match c.username, c.password with
        | some u, some p => [SmtpStep.login u p]
        | _, _ => []) ++
      [SmtpStep.send, SmtpStep.quit])

/-- Run an SMTP script against the oracle `raises`: the trace is the
prefix of steps attempted, ending at the first step that raises; the
boolean reports whether every step succeeded.  The surrounding
`try/except` of `_send_email_notification` catches the raise, so the
function always returns. -/
def runSmtp (raises : SmtpStep → Bool) : List SmtpStep → List SmtpStep × Bool
  | [] => ([], true)
  | s :: rest =>
    if raises s then ([s], false)
    else
      let r := runSmtp raises rest
      (s :: r.1, r.2)

/-- `_send_email_notification`: skips entirely when no configuration is
present; otherwise attempts the SMTP script, absorbing any raise.
Returns the attempted trace and whether delivery succeeded. -/
def send_email_notification (raises : SmtpStep → Bool)
    (email_config : Option EmailConfig) : List SmtpStep × Bool :=
  match email_config with
  | none => ([], false)
  | some c => runSmtp raises (smtpScript c)

/-- The `WebsiteChangeMonitor` object state: constructor arguments plus
the derived `url_hash` and `hash_file` and the mutable `previous_hash`. -/
structure WebsiteChangeMonitor where
  url : String
  check_interval : Int
  email_config : Option EmailConfig
  url_hash : String
  hash_file : String
  previous_hash : Option String
  deriving Repr, DecidableEq

/-- `_get_saved_hash`: read the previous hash from the file if it exists;
a read or parse error is logged and treated as absent. -/
def get_saved_hash (fs : FileSystem) (path : String) : Option String :=
  match fileRead fs path with
  | none => none
  | some none => none
  | some (some data) => data.hash

/-- `__init__`: derive `url_hash` from the address with md5, place the
state file under /tmp at a path determined by that key, and load any
previously saved hash. -/
def WebsiteChangeMonitor.init (md5Hex : String → String) (url : String)
    (check_interval : Int) (email_config : Option EmailConfig)
    (fs : FileSystem) : WebsiteChangeMonitor :=
  let url_hash := md5Hex url
  let hash_file := "/tmp/website_hash_" ++ url_hash ++ ".json"
  { url := url, check_interval := check_interval, email_config := email_config,
    url_hash := url_hash, hash_file := hash_file,
    previous_hash := get_saved_hash fs hash_file }

/-- `_save_hash`: write the record to the hash file of the monitor.  A write
failure is logged and skipped in the source; writes are modelled as
succeeding. -/
def save_hash (m : WebsiteChangeMonitor) (hash_value : Option String)
    (now : String) (fs : FileSystem) : FileSystem :=
  fileWrite fs m.hash_file ⟨hash_value, m.url, now⟩

/-- `_calculate_hash`: sha256 hex digest of truthy content, `None` for
falsy content. -/
def calculate_hash (sha : String → String) (content : String) : Option String :=
  if content != "" then some (sha content) else none

/-- The observable outcome of one `check_for_changes` call: the returned
boolean, the monitor object afterwards, the filesystem afterwards, how
many times `_send_email_notification` was invoked, and the SMTP steps it
attempted. -/
structure CheckResult where
  result : Bool
  state : WebsiteChangeMonitor
  fs : FileSystem
  emailAttempts : Nat
  smtpTrace : List SmtpStep
  deriving Repr, DecidableEq

/-- `check_for_changes`:
falsy content (fetch failure or empty body) returns False untouched;
falsy `previous_hash` is the first run — save, remember, return False;
a differing hash saves, remembers, notifies when `email_config` is
truthy, and returns True; an equal hash returns False untouched. -/
def check_for_changes (sha : String → String) (now : String)
    (fetch : Option String) (m : WebsiteChangeMonitor) (fs : FileSystem)
    (raises : SmtpStep → Bool) : CheckResult :=
  if pyTruthy fetch = false then
    ⟨false, m, fs, 0, []⟩
  else
    let content := fetch.getD ""
    let current_hash := calculate_hash sha content
    if pyTruthy m.previous_hash = false then
      ⟨false, { m with previous_hash := current_hash },
        save_hash m current_hash now fs, 0, []⟩
    else if current_hash ≠ m.previous_hash then
      if m.email_config.isSome then
        ⟨true, { m with previous_hash := current_hash },
          save_hash m current_hash now fs, 1,
          (send_email_notification raises m.email_config).1⟩
      else
        ⟨true, { m with previous_hash := current_hash },
          save_hash m current_hash now fs, 0, []⟩
    else
      ⟨false, m, fs, 0, []⟩

/-- The shared `monitor_status` dict of `app.py`. -/
structure MonitorStatus where
  is_running : Bool
  last_check_time : Option String
  target_url : Option String
  check_interval : Option Int
  changes_detected : Nat
  deriving Repr, DecidableEq

/-- `update_monitor_status`: always stamp `last_check_time`; update the
url and interval fields only when the optional arguments are truthy. -/
def update_monitor_status (now : String) (url : Option String)
    (interval : Option Int) (st : MonitorStatus) : MonitorStatus :=
  let st1 := { st with last_check_time := some now }
  let st2 := if pyTruthy url then { st1 with target_url := url } else st1
  if pyTruthyInt interval then { st2 with check_interval := interval } else st2

/-- The environment variables `monitor_website` reads; each is `none`
when the variable is unset. -/
structure Env where
  website_url : Option String
  check_interval_env : Option String
  email_sender : Option String
  email_recipient : Option String
  smtp_server : Option String
  smtp_port : Option String
  use_tls_env : Option String
  email_username : Option String
  email_password : Option String
  deriving Repr, DecidableEq

/-- The email-configuration block of `monitor_website`: when the sender,
recipient and SMTP server variables are all truthy, build the dict —
including the `username` and `password` KEYS unconditionally, with
whatever (possibly `None`) values the environment holds.  The outer
`none` is an uncaught `ValueError` from `int()` on a malformed
`SMTP_PORT`; `some none` means notifications are not configured. -/
def buildEmailConfig (env : Env) : Option (Option EmailConfig) :=
  if pyTruthy env.email_sender && pyTruthy env.email_recipient
      && pyTruthy env.smtp_server then
    match pyInt (env.smtp_port.getD "587") with
    | none => none
    | some port =>
      some (some
        { sender := env.email_sender.getD ""
          recipient := env.email_recipient.getD ""
          smtp_server := env.smtp_server.getD ""
          smtp_port := port
          use_tls := pyLower (env.use_tls_env.getD "True") == "true".data
          username := some env.email_username
          password := some env.email_password })
  else some none

/-- The whole mutable state the monitoring loop acts on: the monitor
object, the /tmp filesystem and the shared status dict. -/
structure LoopState where
  monitor : WebsiteChangeMonitor
  fs : FileSystem
  status : MonitorStatus
  deriving Repr, DecidableEq

/-- How the startup part of `monitor_website` (before the `while True`
loop) can end. -/
inductive SetupResult where
  | noUrl
  | crashed
  | started (ls : LoopState)
  deriving Repr, DecidableEq

/-- The startup part of `monitor_website`: a falsy `WEBSITE_URL` logs and
returns before any iteration; `CHECK_INTERVAL` falls back to 3600 on a
`ValueError`; the email block may raise an uncaught `ValueError` on a
malformed `SMTP_PORT` (crashing the monitor thread); otherwise the
monitor object is constructed and the status dict is marked running. -/
def monitor_website_setup (md5Hex : String → String) (env : Env)
    (fs : FileSystem) (st : MonitorStatus) : SetupResult :=
  if pyTruthy env.website_url = false then .noUrl
  else
    let url := env.website_url.getD ""
    let check_interval := (pyInt (env.check_interval_env.getD "3600")).getD 3600
    match buildEmailConfig env with
    | none => .crashed
    | some email_config =>
      let monitor := WebsiteChangeMonitor.init md5Hex url check_interval email_config fs
      .started ⟨monitor, fs,
        { st with is_running := true, target_url := some url,
                  check_interval := some check_interval }⟩

/-- Where, within the `try` block of one loop iteration, an unexpected
exception is raised.  The inner calls (`check_for_changes` and the
functions it uses) handle their own expected exceptions, so raise points
are modelled at the statement boundaries of the loop body. -/
inductive RaisePoint where
  | beforeCheck
  | beforeUpdate
  | beforeIncrement
  | duringSleep
  deriving Repr, DecidableEq

/-- One iteration of the `while True` loop of `monitor_website`: either
the body runs to completion (`normal`, with the fetch outcome and SMTP
oracle for this iteration), or an unexpected exception is raised at some
point of the body (`raised`) and caught by the `except` clause. -/
inductive IterEvent where
  | normal (fetch : Option String) (raises : SmtpStep → Bool)
  | raised (p : RaisePoint) (fetch : Option String) (raises : SmtpStep → Bool)

/-- One loop iteration: run `check_for_changes`, stamp the status, bump
`changes_detected` when a change was reported, then sleep for the
configured interval.  A raised exception keeps the effects made so far,
is caught and logged, and is followed by a fixed 60-second sleep; the
loop always continues with the returned state. -/
def monitor_iteration (sha : String → String) (now : String) (ev : IterEvent)
    (ls : LoopState) : LoopState × Int :=
  match ev with
  | .normal fetch raises =>
    let r := check_for_changes sha now fetch ls.monitor ls.fs raises
    let st1 := update_monitor_status now none none ls.status
    let st2 := if r.result then
        { st1 with changes_detected := st1.changes_detected + 1 }
      else st1
    (⟨r.state, r.fs, st2⟩, ls.monitor.check_interval)
  | .raised p fetch raises =>
    let r := check_for_changes sha now fetch ls.monitor ls.fs raises
    let st1 := update_monitor_status now none none ls.status
    let st2 := if r.result then
        { st1 with changes_detected := st1.changes_detected + 1 }
      else st1
    match p with
    | .beforeCheck => (ls, 60)
    | .beforeUpdate => (⟨r.state, r.fs, ls.status⟩, 60)
    | .beforeIncrement => (⟨r.state, r.fs, st1⟩, 60)
    | .duringSleep => (⟨r.state, r.fs, st2⟩, 60)

/-- Reading back the file just written returns the record written. -/
theorem fileRead_fileWrite (fs : FileSystem) (path : String) (r : SavedRecord) :
    fileRead (fileWrite fs path r) path = some (some r) := by
  induction fs with
  | nil => simp [fileWrite, fileRead]
  | cons hd tl ih =>
    obtain ⟨p, v⟩ := hd
    by_cases h : p = path
    · simp [fileWrite, fileRead, h]
    · simp [fileWrite, fileRead, h, ih]

/-- C1: the claim promises a four-valued outcome from which a caller can
tell a failed fetch and a baseline-establishing first run apart from a
genuine no-change result.  On the code, `check_for_changes` returns a
boolean: at a concrete monitor whose stored digest of "A" is "d:A", the
fetch-failed invocation, the no-change invocation (content "A") and the
first-run invocation (previous hash unset) all return the very same
value `false`, so the outcomes are not distinguishable. -/
theorem c1_counterexample :
    (check_for_changes (fun s => "d:" ++ s) "t" none
      ⟨"u", 5, none, "k", "/tmp/f", some "d:A"⟩ [] (fun _ => false)).result
        = false ∧
    (check_for_changes (fun s => "d:" ++ s) "t" (some "A")
      ⟨"u", 5, none, "k", "/tmp/f", some "d:A"⟩ [] (fun _ => false)).result
        = false ∧
    (check_for_changes (fun s => "d:" ++ s) "t" (some "A")
      ⟨"u", 5, none, "k", "/tmp/f", none⟩ [] (fun _ => false)).result
        = false := by
  decide

/-- C1 (amended): `check_for_changes` returns a two-valued boolean, true
exactly when the fetch produced truthy content, a previous fingerprint
was set, and the digest differs from it; fetch failure, empty body,
first run and no-change all return the indistinguishable value false. -/
theorem c1_theorem (sha : String → String) (now : String)
    (fetch : Option String) (m : WebsiteChangeMonitor) (fs : FileSystem)
    (raises : SmtpStep → Bool) :
    (check_for_changes sha now fetch m fs raises).result = true ↔
      (pyTruthy fetch = true ∧ pyTruthy m.previous_hash = true ∧
        calculate_hash sha (fetch.getD "") ≠ m.previous_hash) := by
  cases hf : pyTruthy fetch with
  | false => simp [check_for_changes, hf]
  | true =>
    cases hp : pyTruthy m.previous_hash with
    | false => simp [check_for_changes, hf, hp]
    | true =>
      by_cases hc : calculate_hash sha (fetch.getD "") ≠ m.previous_hash
      · rcases he : m.email_config with _ | c <;>
          simp [check_for_changes, hf, hp, hc, he]
      · simp [check_for_changes, hf, hp, hc]

/-- C4: when the fetch fails, `check_for_changes` returns false with the
monitor object, the filesystem, the notification count and the SMTP
trace all untouched, and the loop iteration leaves `changes_detected`
unchanged, only stamping `last_check_time`. -/
theorem c4_theorem (sha : String → String) (now : String)
    (m : WebsiteChangeMonitor) (fs : FileSystem) (raises : SmtpStep → Bool)
    (st : MonitorStatus) :
    check_for_changes sha now none m fs raises = ⟨false, m, fs, 0, []⟩ ∧
    (monitor_iteration sha now (.normal none raises) ⟨m, fs, st⟩).1
      = ⟨m, fs, update_monitor_status now none none st⟩ := by
  constructor
  · simp [check_for_changes, pyTruthy]
  · simp [monitor_iteration, check_for_changes, pyTruthy]

/-- C10: a successful fetch with an empty body takes exactly the path of
a failed fetch — the whole observable outcome of `check_for_changes` is
identical — and `_calculate_hash` of empty content is `None`; no
fingerprint is computed, stored or compared for an empty body. -/
theorem c10_theorem (sha : String → String) (now : String)
    (m : WebsiteChangeMonitor) (fs : FileSystem) (raises : SmtpStep → Bool) :
    check_for_changes sha now (some "") m fs raises
      = check_for_changes sha now none m fs raises ∧
    calculate_hash sha "" = none := by
  constructor <;> simp [check_for_changes, calculate_hash, pyTruthy]

/-- C2: with no prior fingerprint in memory, the first check that
fetches truthy content returns false (never the changed outcome), seeds
the store with the current fingerprint, remembers it in memory, invokes
no notification, and leaves `changes_detected` unchanged in the loop. -/
theorem c2_theorem (sha : String → String) (now : String) (content : String)
    (m : WebsiteChangeMonitor) (fs : FileSystem) (raises : SmtpStep → Bool)
    (st : MonitorStatus)
    (hprev : m.previous_hash = none) (hc : content ≠ "") :
    (check_for_changes sha now (some content) m fs raises).result = false ∧
    (check_for_changes sha now (some content) m fs raises).state.previous_hash
      = some (sha content) ∧
    fileRead (check_for_changes sha now (some content) m fs raises).fs m.hash_file
      = some (some ⟨some (sha content), m.url, now⟩) ∧
    (check_for_changes sha now (some content) m fs raises).emailAttempts = 0 ∧
    (check_for_changes sha now (some content) m fs raises).smtpTrace = [] ∧
    (monitor_iteration sha now (.normal (some content) raises)
        ⟨m, fs, st⟩).1.status.changes_detected = st.changes_detected := by
  have h1 : check_for_changes sha now (some content) m fs raises
      = ⟨false, { m with previous_hash := some (sha content) },
          save_hash m (some (sha content)) now fs, 0, []⟩ := by
    simp [check_for_changes, pyTruthy, hprev, hc, calculate_hash]
  refine ⟨by simp [h1], by simp [h1], ?_, by simp [h1], by simp [h1], ?_⟩
  · simp [h1, save_hash, fileRead_fileWrite]
  · simp [monitor_iteration, h1, update_monitor_status, pyTruthy, pyTruthyInt]

/-- C2 applied at a concrete first run: url "u", content "A". -/
theorem c2_witness :
    (check_for_changes (fun s => "d:" ++ s) "t0" (some "A")
      ⟨"u", 5, none, "k", "/tmp/f", none⟩ [] (fun _ => false)).result = false ∧
    (check_for_changes (fun s => "d:" ++ s) "t0" (some "A")
      ⟨"u", 5, none, "k", "/tmp/f", none⟩ [] (fun _ => false)).state.previous_hash
      = some "d:A" ∧
    fileRead (check_for_changes (fun s => "d:" ++ s) "t0" (some "A")
      ⟨"u", 5, none, "k", "/tmp/f", none⟩ [] (fun _ => false)).fs "/tmp/f"
      = some (some ⟨some "d:A", "u", "t0"⟩) ∧
    (check_for_changes (fun s => "d:" ++ s) "t0" (some "A")
      ⟨"u", 5, none, "k", "/tmp/f", none⟩ [] (fun _ => false)).emailAttempts = 0 ∧
    (check_for_changes (fun s => "d:" ++ s) "t0" (some "A")
      ⟨"u", 5, none, "k", "/tmp/f", none⟩ [] (fun _ => false)).smtpTrace = [] ∧
    (monitor_iteration (fun s => "d:" ++ s) "t0"
        (.normal (some "A") (fun _ => false))
        ⟨⟨"u", 5, none, "k", "/tmp/f", none⟩, [],
          ⟨true, none, some "u", some 5, 0⟩⟩).1.status.changes_detected = 0 :=
  c2_theorem (fun s => "d:" ++ s) "t0" "A" ⟨"u", 5, none, "k", "/tmp/f", none⟩
    [] (fun _ => false) ⟨true, none, some "u", some 5, 0⟩ rfl (by decide)

/-- C3: with a stored nonempty fingerprint `prev` and truthy fetched
content — if the digest equals `prev` the check returns false leaving
the monitor, the store and the notifier untouched; if the digest differs
it returns true, persists the new fingerprint, updates the in-memory
previous fingerprint, and invokes the notifier exactly once when email
configuration is present and not at all otherwise. -/
theorem c3_theorem (sha : String → String) (now : String) (content prev : String)
    (m : WebsiteChangeMonitor) (fs : FileSystem) (raises : SmtpStep → Bool)
    (hprev : m.previous_hash = some prev) (hne : prev ≠ "") (hc : content ≠ "") :
    (sha content = prev →
      check_for_changes sha now (some content) m fs raises
        = ⟨false, m, fs, 0, []⟩) ∧
    (sha content ≠ prev →
      ((check_for_changes sha now (some content) m fs raises).result = true ∧
       (check_for_changes sha now (some content) m fs raises).state.previous_hash
         = some (sha content) ∧
       fileRead (check_for_changes sha now (some content) m fs raises).fs m.hash_file
         = some (some ⟨some (sha content), m.url, now⟩) ∧
       (check_for_changes sha now (some content) m fs raises).emailAttempts
         = (if m.email_config.isSome then 1 else 0) ∧
       (m.email_config = none →
         (check_for_changes sha now (some content) m fs raises).smtpTrace = []))) := by
  constructor
  · intro heq
    simp [check_for_changes, pyTruthy, hprev, hne, hc, calculate_hash, heq]
  · intro hdiff
    rcases he : m.email_config with _ | c
    · have h1 : check_for_changes sha now (some content) m fs raises
          = ⟨true, { m with previous_hash := some (sha content) },
              save_hash m (some (sha content)) now fs, 0, []⟩ := by
        simp [check_for_changes, pyTruthy, hprev, hne, hc, calculate_hash, hdiff, he]
      simp [h1, he, save_hash, fileRead_fileWrite]
    · have h1 : check_for_changes sha now (some content) m fs raises
          = ⟨true, { m with previous_hash := some (sha content) },
              save_hash m (some (sha content)) now fs, 1,
              (send_email_notification raises m.email_config).1⟩ := by
        simp [check_for_changes, pyTruthy, hprev, hne, hc, calculate_hash, hdiff, he]
      simp [h1, he, save_hash, fileRead_fileWrite]

/-- C3 applied concretely: stored digest "d:A"; content "A" gives
no-change and content "B" gives a change with one notifier call. -/
theorem c3_witness :
    ((fun s => "d:" ++ s) "A" = "d:A" →
      check_for_changes (fun s => "d:" ++ s) "t1" (some "A")
        ⟨"u", 5, none, "k", "/tmp/f", some "d:A"⟩ [] (fun _ => false)
        = ⟨false, ⟨"u", 5, none, "k", "/tmp/f", some "d:A"⟩, [], 0, []⟩) ∧
    ((fun s => "d:" ++ s) "A" ≠ "d:A" →
      ((check_for_changes (fun s => "d:" ++ s) "t1" (some "A")
         ⟨"u", 5, none, "k", "/tmp/f", some "d:A"⟩ [] (fun _ => false)).result = true ∧
       (check_for_changes (fun s => "d:" ++ s) "t1" (some "A")
         ⟨"u", 5, none, "k", "/tmp/f", some "d:A"⟩ [] (fun _ => false)).state.previous_hash
         = some "d:A" ∧
       fileRead (check_for_changes (fun s => "d:" ++ s) "t1" (some "A")
         ⟨"u", 5, none, "k", "/tmp/f", some "d:A"⟩ [] (fun _ => false)).fs "/tmp/f"
         = some (some ⟨some "d:A", "u", "t1"⟩) ∧
       (check_for_changes (fun s => "d:" ++ s) "t1" (some "A")
         ⟨"u", 5, none, "k", "/tmp/f", some "d:A"⟩ [] (fun _ => false)).emailAttempts
         = (if (none : Option EmailConfig).isSome then 1 else 0) ∧
       ((none : Option EmailConfig) = none →
         (check_for_changes (fun s => "d:" ++ s) "t1" (some "A")
           ⟨"u", 5, none, "k", "/tmp/f", some "d:A"⟩ [] (fun _ => false)).smtpTrace = []))) :=
  c3_theorem (fun s => "d:" ++ s) "t1" "A" "d:A"
    ⟨"u", 5, none, "k", "/tmp/f", some "d:A"⟩ [] (fun _ => false)
    rfl (by decide) (by decide)

/-- C5: the storage key is a deterministic function of the address alone
(two constructions for the same address agree on `hash_file` whatever
the interval, email configuration or filesystem); after saving a
nonempty fingerprint F under that key, a freshly constructed monitor for
the same address loads F as its previous fingerprint; and a subsequent
check whose content digests to F returns false with monitor and store
untouched — no re-seeding, no second first-run outcome. -/
theorem c5_theorem (md5Hex sha : String → String) (url now now2 : String)
    (i1 i2 : Int) (e1 e2 : Option EmailConfig) (fs fs2 : FileSystem)
    (F content : String) (raises : SmtpStep → Bool)
    (hF : F ≠ "") (hc : content ≠ "") (hsha : sha content = F) :
    (WebsiteChangeMonitor.init md5Hex url i1 e1 fs).hash_file
      = (WebsiteChangeMonitor.init md5Hex url i2 e2 fs2).hash_file ∧
    (WebsiteChangeMonitor.init md5Hex url i2 e2
        (save_hash (WebsiteChangeMonitor.init md5Hex url i1 e1 fs)
          (some F) now fs)).previous_hash = some F ∧
    check_for_changes sha now2 (some content)
        (WebsiteChangeMonitor.init md5Hex url i2 e2
          (save_hash (WebsiteChangeMonitor.init md5Hex url i1 e1 fs) (some F) now fs))
        (save_hash (WebsiteChangeMonitor.init md5Hex url i1 e1 fs) (some F) now fs)
        raises
      = ⟨false,
         WebsiteChangeMonitor.init md5Hex url i2 e2
           (save_hash (WebsiteChangeMonitor.init md5Hex url i1 e1 fs) (some F) now fs),
         save_hash (WebsiteChangeMonitor.init md5Hex url i1 e1 fs) (some F) now fs,
         0, []⟩ := by
  have hkey : (WebsiteChangeMonitor.init md5Hex url i1 e1 fs).hash_file
      = (WebsiteChangeMonitor.init md5Hex url i2 e2 fs2).hash_file := by
    simp [WebsiteChangeMonitor.init]
  have hload : (WebsiteChangeMonitor.init md5Hex url i2 e2
      (save_hash (WebsiteChangeMonitor.init md5Hex url i1 e1 fs)
        (some F) now fs)).previous_hash = some F := by
    simp [WebsiteChangeMonitor.init, save_hash, get_saved_hash, fileRead_fileWrite]
  refine ⟨hkey, hload, ?_⟩
  simp [check_for_changes, pyTruthy, hload, hF, hc, calculate_hash, hsha]

/-- C5 applied concretely: address "u", fingerprint "d:A" saved, restart
and re-fetch of content "A". -/
theorem c5_witness :
    (WebsiteChangeMonitor.init (fun s => "k:" ++ s) "u" 5 none []).hash_file
      = (WebsiteChangeMonitor.init (fun s => "k:" ++ s) "u" 7 none []).hash_file ∧
    (WebsiteChangeMonitor.init (fun s => "k:" ++ s) "u" 7 none
        (save_hash (WebsiteChangeMonitor.init (fun s => "k:" ++ s) "u" 5 none [])
          (some "d:A") "t0" [])).previous_hash = some "d:A" ∧
    check_for_changes (fun s => "d:" ++ s) "t1" (some "A")
        (WebsiteChangeMonitor.init (fun s => "k:" ++ s) "u" 7 none
          (save_hash (WebsiteChangeMonitor.init (fun s => "k:" ++ s) "u" 5 none [])
            (some "d:A") "t0" []))
        (save_hash (WebsiteChangeMonitor.init (fun s => "k:" ++ s) "u" 5 none [])
          (some "d:A") "t0" [])
        (fun _ => false)
      = ⟨false,
         WebsiteChangeMonitor.init (fun s => "k:" ++ s) "u" 7 none
           (save_hash (WebsiteChangeMonitor.init (fun s => "k:" ++ s) "u" 5 none [])
             (some "d:A") "t0" []),
         save_hash (WebsiteChangeMonitor.init (fun s => "k:" ++ s) "u" 5 none [])
           (some "d:A") "t0" [],
         0, []⟩ :=
  c5_theorem (fun s => "k:" ++ s) (fun s => "d:" ++ s) "u" "t0" "t1" 5 7 none none
    [] [] "d:A" "A" (fun _ => false) (by decide) (by decide) rfl

/-- C6: on a detected change with email configuration present, the
returned value, the monitor object afterwards and the persisted store
are identical whatever subset of SMTP steps raises — a notification
delivery failure is absorbed inside `_send_email_notification` and never
alters or rolls back the fingerprint persisted before the attempt; the
check still returns true. -/
theorem c6_theorem (sha : String → String) (now : String) (content prev : String)
    (m : WebsiteChangeMonitor) (fs : FileSystem) (r1 r2 : SmtpStep → Bool)
    (hprev : m.previous_hash = some prev) (hne : prev ≠ "") (hc : content ≠ "")
    (hdiff : sha content ≠ prev) (hcfg : m.email_config.isSome = true) :
    (check_for_changes sha now (some content) m fs r1).result = true ∧
    (check_for_changes sha now (some content) m fs r1).state
      = (check_for_changes sha now (some content) m fs r2).state ∧
    (check_for_changes sha now (some content) m fs r1).fs
      = (check_for_changes sha now (some content) m fs r2).fs ∧
    (check_for_changes sha now (some content) m fs r1).result
      = (check_for_changes sha now (some content) m fs r2).result ∧
    fileRead (check_for_changes sha now (some content) m fs r1).fs m.hash_file
      = some (some ⟨some (sha content), m.url, now⟩) ∧
    (check_for_changes sha now (some content) m fs r1).state.previous_hash
      = some (sha content) := by
  have h1 : ∀ r : SmtpStep → Bool, check_for_changes sha now (some content) m fs r
      = ⟨true, { m with previous_hash := some (sha content) },
          save_hash m (some (sha content)) now fs, 1,
          (send_email_notification r m.email_config).1⟩ := by
    intro r
    simp [check_for_changes, pyTruthy, hprev, hne, hc, calculate_hash, hdiff, hcfg]
  simp [h1, save_hash, fileRead_fileWrite]

/-- C6 applied concretely: content "B" over stored "d:A", one run where
no SMTP step raises against one where every SMTP step raises. -/
theorem c6_witness :
    (check_for_changes (fun s => "d:" ++ s) "t1" (some "B")
      ⟨"u", 5, some ⟨"a", "b", "h", 587, true, some (some "user"), some (some "pw")⟩,
        "k", "/tmp/f", some "d:A"⟩ [] (fun _ => false)).result = true ∧
    (check_for_changes (fun s => "d:" ++ s) "t1" (some "B")
      ⟨"u", 5, some ⟨"a", "b", "h", 587, true, some (some "user"), some (some "pw")⟩,
        "k", "/tmp/f", some "d:A"⟩ [] (fun _ => false)).state
      = (check_for_changes (fun s => "d:" ++ s) "t1" (some "B")
      ⟨"u", 5, some ⟨"a", "b", "h", 587, true, some (some "user"), some (some "pw")⟩,
        "k", "/tmp/f", some "d:A"⟩ [] (fun _ => true)).state ∧
    (check_for_changes (fun s => "d:" ++ s) "t1" (some "B")
      ⟨"u", 5, some ⟨"a", "b", "h", 587, true, some (some "user"), some (some "pw")⟩,
        "k", "/tmp/f", some "d:A"⟩ [] (fun _ => false)).fs
      = (check_for_changes (fun s => "d:" ++ s) "t1" (some "B")
      ⟨"u", 5, some ⟨"a", "b", "h", 587, true, some (some "user"), some (some "pw")⟩,
        "k", "/tmp/f", some "d:A"⟩ [] (fun _ => true)).fs ∧
    (check_for_changes (fun s => "d:" ++ s) "t1" (some "B")
      ⟨"u", 5, some ⟨"a", "b", "h", 587, true, some (some "user"), some (some "pw")⟩,
        "k", "/tmp/f", some "d:A"⟩ [] (fun _ => false)).result
      = (check_for_changes (fun s => "d:" ++ s) "t1" (some "B")
      ⟨"u", 5, some ⟨"a", "b", "h", 587, true, some (some "user"), some (some "pw")⟩,
        "k", "/tmp/f", some "d:A"⟩ [] (fun _ => true)).result ∧
    fileRead (check_for_changes (fun s => "d:" ++ s) "t1" (some "B")
      ⟨"u", 5, some ⟨"a", "b", "h", 587, true, some (some "user"), some (some "pw")⟩,
        "k", "/tmp/f", some "d:A"⟩ [] (fun _ => false)).fs "/tmp/f"
      = some (some ⟨some "d:B", "u", "t1"⟩) ∧
    (check_for_changes (fun s => "d:" ++ s) "t1" (some "B")
      ⟨"u", 5, some ⟨"a", "b", "h", 587, true, some (some "user"), some (some "pw")⟩,
        "k", "/tmp/f", some "d:A"⟩ [] (fun _ => false)).state.previous_hash
      = some "d:B" :=
  c6_theorem (fun s => "d:" ++ s) "t1" "B" "d:A"
    ⟨"u", 5, some ⟨"a", "b", "h", 587, true, some (some "user"), some (some "pw")⟩,
      "k", "/tmp/f", some "d:A"⟩ [] (fun _ => false) (fun _ => true)
    rfl (by decide) (by decide) (by decide) rfl

/-- C7: the claim says the ONLY startup-time halt is a missing target
address.  On the code, with the target address set and the three email
variables present but `SMTP_PORT` set to the non-numeric string "oops",
`int()` raises an uncaught `ValueError` inside `monitor_website` before
the loop starts: a second startup-time halt, by crash rather than by a
clean return. -/
theorem c7_counterexample :
    monitor_website_setup (fun s => "k:" ++ s)
      ⟨some "http://x", none, some "a@x", some "b@x", some "smtp.x",
        some "oops", none, none, none⟩
      [] ⟨false, none, none, none, 0⟩ = .crashed := by
  decide

/-- C7 (amended): an unexpected exception raised at any point of a loop
iteration is caught at the loop boundary and followed by the fixed
60-second fallback delay, a completed iteration sleeps the configured
interval (the loop always continues either way), and a falsy target
address makes `monitor_website` return before any iteration; however a
malformed `SMTP_PORT` alongside complete email settings is a second
startup-time halt, an uncaught `ValueError` before any iteration. -/
theorem c7_theorem (md5Hex sha : String → String) (env : Env)
    (fs : FileSystem) (st : MonitorStatus) (now : String) (ls : LoopState)
    (p : RaisePoint) (fetch : Option String) (raises : SmtpStep → Bool) :
    (pyTruthy env.website_url = false →
      monitor_website_setup md5Hex env fs st = .noUrl) ∧
    (monitor_iteration sha now (.raised p fetch raises) ls).2 = 60 ∧
    (monitor_iteration sha now (.normal fetch raises) ls).2
      = ls.monitor.check_interval := by
  refine ⟨fun h => ?_, ?_, ?_⟩
  · simp [monitor_website_setup, h]
  · cases p <;> simp [monitor_iteration]
  · simp [monitor_iteration]

/-- C7 applied concretely: unset target address halts setup; a raising
iteration sleeps 60; a normal iteration sleeps the interval. -/
theorem c7_witness :
    (pyTruthy (Env.mk none none none none none none none none none).website_url = false →
      monitor_website_setup (fun s => "k:" ++ s)
        (Env.mk none none none none none none none none none)
        [] ⟨false, none, none, none, 0⟩ = .noUrl) ∧
    (monitor_iteration (fun s => "d:" ++ s) "t0"
      (.raised .beforeCheck none (fun _ => false))
      ⟨⟨"u", 5, none, "k", "/tmp/f", none⟩, [], ⟨true, none, some "u", some 5, 0⟩⟩).2
      = 60 ∧
    (monitor_iteration (fun s => "d:" ++ s) "t0" (.normal none (fun _ => false))
      ⟨⟨"u", 5, none, "k", "/tmp/f", none⟩, [], ⟨true, none, some "u", some 5, 0⟩⟩).2
      = 5 :=
  c7_theorem (fun s => "k:" ++ s) (fun s => "d:" ++ s)
    (Env.mk none none none none none none none none none)
    [] ⟨false, none, none, none, 0⟩ "t0"
    ⟨⟨"u", 5, none, "k", "/tmp/f", none⟩, [], ⟨true, none, some "u", some 5, 0⟩⟩
    .beforeCheck none (fun _ => false)

/-- C8: over every loop iteration — normal or interrupted anywhere by a
caught exception — `changes_detected` never decreases; on a completed
iteration `last_check_time` is stamped with the current time whether the
check succeeded or the fetch failed, and `changes_detected` grows by one
exactly when `check_for_changes` reported a change and is unchanged
otherwise. -/
theorem c8_theorem (sha : String → String) (now : String) (ls : LoopState)
    (ev : IterEvent) (fetch : Option String) (raises : SmtpStep → Bool) :
    ls.status.changes_detected
      ≤ (monitor_iteration sha now ev ls).1.status.changes_detected ∧
    (monitor_iteration sha now (.normal fetch raises) ls).1.status.last_check_time
      = some now ∧
    (monitor_iteration sha now (.normal fetch raises) ls).1.status.changes_detected
      = ls.status.changes_detected
        + (if (check_for_changes sha now fetch ls.monitor ls.fs raises).result
            then 1 else 0) := by
  refine ⟨?_, ?_, ?_⟩
  · cases ev with
    | normal f r =>
      by_cases h : (check_for_changes sha now f ls.monitor ls.fs r).result <;>
        simp [monitor_iteration, update_monitor_status, pyTruthy, pyTruthyInt, h]
    | raised p f r =>
      cases p <;>
        (try by_cases h : (check_for_changes sha now f ls.monitor ls.fs r).result) <;>
        simp [monitor_iteration, update_monitor_status, pyTruthy, pyTruthyInt, *]
  · by_cases h : (check_for_changes sha now fetch ls.monitor ls.fs raises).result <;>
      simp [monitor_iteration, update_monitor_status, pyTruthy, pyTruthyInt, h]
  · by_cases h : (check_for_changes sha now fetch ls.monitor ls.fs raises).result <;>
      simp [monitor_iteration, update_monitor_status, pyTruthy, pyTruthyInt, h]

/-- The environment of the C9 failing input: sender, recipient and SMTP
server configured, credentials (and port) left unset. -/
def envNoCreds : Env :=
  ⟨some "http://x", none, some "alerts@x", some "ops@x", some "smtp.x",
    none, none, none, none⟩

/-- The email configuration dict `monitor_website` builds from
`envNoCreds`: the username and password KEYS are present, with value
`None` each. -/
def cfgNoCreds : EmailConfig :=
  ⟨"alerts@x", "ops@x", "smtp.x", 587, true, some none, some none⟩

/-- C9: the claim (with the spec) says delivery proceeds WITHOUT a login
step when credentials are absent from the environment.  On the code,
`monitor_website` always puts the `username` and `password` keys into
the dict — holding `None` when the variables are unset — so the
key-presence test in `_send_email_notification` passes and an SMTP
`login(None, None)` call is attempted inside the delivery session. -/
theorem c9_theorem :
    buildEmailConfig envNoCreds = some (some cfgNoCreds) ∧
    cfgNoCreds.username = some none ∧
    cfgNoCreds.password = some none ∧
    SmtpStep.login none none ∈ smtpScript cfgNoCreds ∧
    (send_email_notification (fun _ => false) (some cfgNoCreds)).1
      = [SmtpStep.connect "smtp.x" 587, SmtpStep.starttls,
         SmtpStep.login none none, SmtpStep.send, SmtpStep.quit] := by
  decide

end WebsiteMonitor
